import Mathlib

/-!
Verification development for the MapToken frame-generation engine
(`frames.js`, with `app.js` as the UI caller).

The JavaScript color math is embedded over exact rationals (`ℚ`): every
arithmetic step of the source is mirrored term by term, and `Math.round` /
`%` are modelled by explicit functions below.  JavaScript evaluates these
formulas in IEEE doubles; over the domain used here (small integer inputs,
a handful of additions, multiplications and one division) the two agree
except conceivably when a value lands within double-rounding distance of a
half-integer, which does not occur at any input examined below.

SVG output is embedded structurally: each template literal of the source
becomes a constructor application carrying the same numeric attributes and
tone colors, with trigonometric positions kept symbolic as (radius, angle)
pairs, angles stored as `a.piCoeff * π + a.rad` radians.
-/

namespace MapToken

/-- JavaScript `Math.round`: round half toward positive infinity. -/
def jsRound (q : ℚ) : ℤ := Int.floor (q + 1/2)

/-- JavaScript `%` (remainder) for a nonnegative dividend and positive
divisor, the only case the source exercises (`(n + h/30) % 12` with
`h ≥ 0`): `x - y * floor (x / y)`. -/
def jsMod (x y : ℚ) : ℚ := x - y * Int.floor (x / y)

-- ── Hex parsing (frames.js lines 14-17: parseInt(hex.slice(..), 16)) ──────

/-- Value of one hex digit, by ASCII code: `0`-`9`, `a`-`f`, `A`-`F`;
`parseInt(_, 16)` accepts both letter cases. -/
def hexDigitValN (n : ℕ) : Option ℕ :=
  if 48 ≤ n ∧ n ≤ 57 then some (n - 48)
  else if 97 ≤ n ∧ n ≤ 102 then some (n - 87)
  else if 65 ≤ n ∧ n ≤ 70 then some (n - 55)
  else none

def hexDigitVal (c : Char) : Option ℕ := hexDigitValN c.toNat

/-- Two-hex-digit byte, as in `parseInt(hex.slice(i, i+2), 16)` on a valid
color string. -/
def parse2 (a b : Char) : Option ℕ :=
  match hexDigitVal a, hexDigitVal b with
  | some x, some y => some (16 * x + y)
  | _, _ => none

/-- Character positions 1-6 of `hex` parsed as three bytes, mirroring
`hex.slice(1,3)/(3,5)/(5,7)`; position 0 (the `#`) is never read by the
source, and characters past position 6 are ignored, exactly as `slice`
ignores them.  A string too short or with a non-hex digit in positions
1-6 yields `none` (the source would produce NaNs there; every claim
quantifies only over valid 6-digit colors). -/
def parseHexChars : List Char → Option (ℕ × ℕ × ℕ)
  | _ :: c1 :: c2 :: c3 :: c4 :: c5 :: c6 :: _ =>
    match parse2 c1 c2, parse2 c3 c4, parse2 c5 c6 with
    | some r, some g, some b => some (r, g, b)
    | _, _, _ => none
  | _ => none

def parseHexColor (s : String) : Option (ℕ × ℕ × ℕ) := parseHexChars s.data

-- ── hexToHSL (frames.js lines 14-32) ──────────────────────────────────────

/-- Body of `hexToHSL` after the three channels are divided by 255
(frames.js lines 18-31): max/min channel, lightness, saturation by
lightness branch, hue by which channel is the max (the `switch` tries
`r` first, then `g`, then `b`), each rounded to an integer. -/
def hslCore (r g b : ℚ) : ℤ × ℤ × ℤ :=
  let mx := max r (max g b)
  let mn := min r (min g b)
  let l := (mx + mn) / 2
  if mx = mn then
    (0, 0, jsRound (l * 100))
  else
    let d := mx - mn
    let s := if 1/2 < l then d / (2 - mx - mn) else d / (mx + mn)
    let h :=
      if mx = r then ((g - b) / d + (if g < b then (6 : ℚ) else 0)) / 6
      else if mx = g then ((b - r) / d + 2) / 6
      else ((r - g) / d + 4) / 6
    (jsRound (h * 360), jsRound (s * 100), jsRound (l * 100))

/-- `hexToHSL` on already-parsed channel bytes (frames.js lines 15-17
divide each by 255). -/
def hexToHSLrgb (r g b : ℕ) : ℤ × ℤ × ℤ :=
  hslCore ((r : ℚ) / 255) ((g : ℚ) / 255) ((b : ℚ) / 255)

/-- `hexToHSL` (frames.js lines 14-32), `none` on an invalid color string. -/
def hexToHSL (s : String) : Option (ℤ × ℤ × ℤ) :=
  (parseHexColor s).map fun t => hexToHSLrgb t.1 t.2.1 t.2.2

-- ── hslToHex (frames.js lines 34-43) ──────────────────────────────────────

/-- One output channel of `hslToHex` (frames.js lines 37-41): the helper
`f(n)` before hex formatting.  `h`, `s`, `l` are the raw arguments (the
source divides `s` and `l` by 100 first). -/
def hslChannel (h s l : ℚ) (n : ℚ) : ℤ :=
  let s' := s / 100
  let l' := l / 100
  let a := s' * min l' (1 - l')
  let k := jsMod (n + h / 30) 12
  let color := l' - a * max (min (min (k - 3) (9 - k)) 1) (-1)
  jsRound (255 * color)

/-- Lowercase hex digits, as produced by `toString(16)`. -/
def hexDigitChar (d : ℕ) : Char :=
  (("0123456789abcdef").data.getD d 'x')

/-- Two-digit lowercase hex rendering of a channel value in `[0,255]`,
as `toString(16).padStart(2, '0')`. -/
def toHex2 (n : ℤ) : String :=
  String.mk [hexDigitChar (n.toNat / 16), hexDigitChar (n.toNat % 16)]

/-- `hslToHex` (frames.js lines 34-43): `#` followed by the channels
`f(0)`, `f(8)`, `f(4)`. -/
def hslToHex (h s l : ℚ) : String :=
  "#" ++ toHex2 (hslChannel h s l 0) ++ toHex2 (hslChannel h s l 8)
      ++ toHex2 (hslChannel h s l 4)

-- ── toneVariants (frames.js lines 45-54) ──────────────────────────────────

structure Palette where
  base : String
  light : String
  dark : String
  vdark : String
  shine : String
deriving DecidableEq

/-- The (hue, saturation, lightness) triple each tone of `toneVariants`
passes to `hslToHex` (frames.js lines 48-52), before re-encoding. -/
structure ToneParams where
  base : ℤ × ℤ × ℤ
  light : ℤ × ℤ × ℤ
  dark : ℤ × ℤ × ℤ
  vdark : ℤ × ℤ × ℤ
  shine : ℤ × ℤ × ℤ
deriving DecidableEq

def toneParamsHSL (h s l : ℤ) : ToneParams where
  base := (h, s, l)
  light := (h, max (s - 5) 0, min (l + 22) 92)
  dark := (h, min (s + 5) 100, max (l - 22) 8)
  vdark := (h, min (s + 10) 100, max (l - 38) 4)
  shine := (h, max (s - 15) 0, min (l + 38) 96)

/-- Re-encode one HSL triple of `ToneParams` through `hslToHex`. -/
def encodeTone (t : ℤ × ℤ × ℤ) : String :=
  hslToHex (t.1 : ℚ) (t.2.1 : ℚ) (t.2.2 : ℚ)

def applyParams (p : ToneParams) : Palette where
  base := encodeTone p.base
  light := encodeTone p.light
  dark := encodeTone p.dark
  vdark := encodeTone p.vdark
  shine := encodeTone p.shine

/-- `toneVariants` split at the argument tuples (frames.js lines 45-54):
the palette is `hslToHex` applied to each row of `toneParamsHSL`. -/
def toneVariantsHSL (h s l : ℤ) : Palette := applyParams (toneParamsHSL h s l)

/-- The construction parameters of the palette `toneVariants hex` builds. -/
def toneParams (hex : String) : Option ToneParams :=
  (hexToHSL hex).map fun t => toneParamsHSL t.1 t.2.1 t.2.2

/-- `toneVariants` (frames.js lines 45-54), `none` on an invalid color. -/
def toneVariants (hex : String) : Option Palette :=
  (hexToHSL hex).map fun t => toneVariantsHSL t.1 t.2.1 t.2.2


-- ── SVG scene embedding ───────────────────────────────────────────────────

/-- An angle in radians, stored symbolically as `piCoeff * π + rad`.  Every
angle the frame generators compute is of this form: degree conversions and
`2π/n` subdivisions contribute the `π` multiple, and the literal radian
twists (`±0.08`, `±0.18`, `±1.2`) contribute the constant. -/
structure Angle where
  piCoeff : ℚ
  rad : ℚ
deriving DecidableEq

/-- A point of the 512×512 canvas.  All frame geometry is polar about the
center `(256,256)`, so points are kept symbolic: `cart x y` is an absolute
position; `polar r a` is `(256 + r·cos a, 256 + r·sin a)`; `polarOff`
adds a second polar offset to a polar point (gem facet corners,
frames.js lines 226-231). -/
inductive Pt where
  | cart (x y : ℚ)
  | polar (r : ℚ) (a : Angle)
  | polarOff (rc : ℚ) (ac : Angle) (ro : ℚ) (ao : Angle)
deriving DecidableEq

/-- One SVG element of a frame scene; each constructor mirrors one template
literal of frames.js, carrying the same attributes. -/
inductive Elem where
  /-- `<circle cx cy r fill>` -/
  | circle (center : Pt) (r : ℚ) (fill : String)
  /-- `<circle cx cy r fill stroke stroke-width>` -/
  | circleStroked (center : Pt) (r : ℚ) (fill stroke : String) (strokeWidth : ℚ)
  /-- `<circle cx cy r fill opacity>` -/
  | circleOpacity (center : Pt) (r : ℚ) (fill : String) (opacity : ℚ)
  /-- `<circle cx cy r fill="none" stroke stroke-width opacity>` -/
  | strokedRing (center : Pt) (r : ℚ) (stroke : String) (strokeWidth opacity : ℚ)
  /-- `<path d="M p0 Q ctrl p1" stroke stroke-width fill="none">`, with or
  without `stroke-linecap="round"` -/
  | pathQ (p0 ctrl p1 : Pt) (stroke : String) (strokeWidth : ℚ) (roundCap : Bool)
  /-- `<polygon points fill stroke stroke-width>` -/
  | polygon (pts : List Pt) (fill stroke : String) (strokeWidth : ℚ)
  /-- `<polygon points fill="url(#id)" opacity>` -/
  | polygonGrad (pts : List Pt) (gradId : String) (opacity : ℚ)
  /-- `<defs><radialGradient id cx% cy% r%> stops </radialGradient></defs>`;
  each stop is (offset %, color, stop-opacity) -/
  | radialGradientDef (gid : String) (cx cy r : ℚ) (stops : List (ℚ × String × ℚ))
deriving DecidableEq

abbrev Scene := List Elem

/-- The `<mask id="fm">` of `svgWrap` (frames.js lines 65-68): a full-canvas
rectangle and a cutout circle, each with its paint color. -/
structure MaskRect where
  x : ℚ
  y : ℚ
  w : ℚ
  h : ℚ
  fill : String
deriving DecidableEq

structure MaskCircle where
  cx : ℚ
  cy : ℚ
  r : ℚ
  fill : String
deriving DecidableEq

structure MaskDef where
  rect : MaskRect
  hole : MaskCircle
deriving DecidableEq

/-- A self-contained frame image: a fixed-size canvas whose whole content
group carries the mask (`<g mask="url(#fm)">`, frames.js line 70). -/
structure SvgImage where
  width : ℚ
  height : ℚ
  mask : MaskDef
  content : Scene
deriving DecidableEq

/-- `svgWrap` (frames.js lines 58-72): 512×512 canvas, mask = white
full-canvas rect then black circle of radius 232 at (256,256), content
wrapped in the masked group. -/
def svgWrap (content : Scene) : SvgImage where
  width := 512
  height := 512
  mask :=
    { rect := { x := 0, y := 0, w := 512, h := 512, fill := "white" }
      hole := { cx := 256, cy := 256, r := 232, fill := "black" } }
  content := content

-- ── Frame 1 — Simple Ring (frames.js lines 76-83) ─────────────────────────

def center256 : Pt := Pt.cart 256 256

def simpleRingScene (t : Palette) : Scene :=
  [ Elem.circle center256 248 t.dark
  , Elem.circle center256 240 t.base
  , Elem.circle center256 234 t.dark ]

def frameSimpleRing (color : String) : Option SvgImage :=
  (toneVariants color).map fun t => svgWrap (simpleRingScene t)

-- ── Frame 2 — Double Ring (frames.js lines 87-101) ────────────────────────

/-- Circles in source order: outer ring pair, gap, inner ring pair. -/
def doubleRingScene (t : Palette) : Scene :=
  [ Elem.circle center256 252 t.vdark
  , Elem.circle center256 248 t.base
  , Elem.circle center256 243 t.vdark
  , Elem.circle center256 240 t.dark
  , Elem.circle center256 238 t.vdark
  , Elem.circle center256 235 t.light
  , Elem.circle center256 232 t.vdark ]

def frameDoubleRing (color : String) : Option SvgImage :=
  (toneVariants color).map fun t => svgWrap (doubleRingScene t)

-- ── Frame 3 — Rope Twist (frames.js lines 106-130) ────────────────────────

/-- Strand `i` (frames.js lines 113-122): endpoints on radius 242 at
`a0 = i*step - π/2` and `a1 = a0 + step*0.55` with `step = 2π/36`,
control point on radius 234 at `a0 + step*0.275` twisted `+0.08` for even
`i` and `-0.08` for odd `i`; stroke `base` for even `i`, `dark` for odd,
width 9, round caps, no fill. -/
def ropeStrand (t : Palette) (i : ℕ) : Elem :=
  let a0 : Angle := { piCoeff := (i : ℚ) * (2 / 36) - 1 / 2, rad := 0 }
  let a1 : Angle := { piCoeff := a0.piCoeff + (2 / 36) * 0.55, rad := 0 }
  let am : Angle :=
    { piCoeff := a0.piCoeff + (2 / 36) * 0.275
      rad := if i % 2 = 0 then 0.08 else -0.08 }
  Elem.pathQ (Pt.polar 242 a0) (Pt.polar 234 am) (Pt.polar 242 a1)
    (if i % 2 = 0 then t.base else t.dark) 9 true

def ropeStrands (t : Palette) : Scene := (List.range 36).map (ropeStrand t)

def ropeTwistScene (t : Palette) : Scene :=
  [ Elem.circle center256 252 t.vdark
  , Elem.circle center256 248 t.dark ]
  ++ ropeStrands t
  ++ [ Elem.circle center256 233 t.vdark ]

def frameRopeTwist (color : String) : Option SvgImage :=
  (toneVariants color).map fun t => svgWrap (ropeTwistScene t)

-- ── Frame 4 — Ornate Fantasy (frames.js lines 135-177) ────────────────────

/-- Angle of `deg` degrees: `deg * π / 180` (frames.js line 139). -/
def degAngle (deg : ℚ) : Angle := { piCoeff := deg / 180, rad := 0 }

/-- Shift an angle by a constant number of radians. -/
def Angle.plusRad (a : Angle) (c : ℚ) : Angle := { piCoeff := a.piCoeff, rad := a.rad + c }

/-- One petal at `angle` degrees with `size` (frames.js lines 138-151): a
curved stroke from radius 238 at `angle - 0.18` rad through a tip at
radius 248 on the angle to radius 238 at `angle + 0.18` rad, stroke
`shine` width 2.5, plus a filled circle of radius `size * 0.35` at the
tip, fill `light`. -/
def petal (t : Palette) (angle size : ℚ) : List Elem :=
  let a := degAngle angle
  [ Elem.pathQ (Pt.polar 238 (a.plusRad (-0.18))) (Pt.polar 248 a)
      (Pt.polar 238 (a.plusRad 0.18)) t.shine 2.5 false
  , Elem.circle (Pt.polar 248 a) (size * 0.35) t.light ]

def petals (t : Palette) : Scene :=
  (List.range 8).flatMap fun i => petal t ((i : ℚ) * 45 - 90) 6

/-- Vine arc `i` (frames.js lines 158-166): endpoints on radius 241 at
`(i*45 - 90 + 22)°` and `(i*45 - 90 + 44)°`, control point on radius
`241 + 4` at the angular midpoint, stroke `base` width 2. -/
def vine (t : Palette) (i : ℕ) : Elem :=
  let a0 := degAngle ((i : ℚ) * 45 - 90 + 22)
  let a1 := degAngle ((i : ℚ) * 45 - 90 + 44)
  let amid : Angle := { piCoeff := (a0.piCoeff + a1.piCoeff) / 2, rad := 0 }
  Elem.pathQ (Pt.polar 241 a0) (Pt.polar (241 + 4) amid) (Pt.polar 241 a1) t.base 2 false

def vines (t : Palette) : Scene := (List.range 8).map (vine t)

def ornateScene (t : Palette) : Scene :=
  [ Elem.circle center256 252 t.vdark
  , Elem.circle center256 248 t.dark
  , Elem.circle center256 244 t.base
  , Elem.circle center256 237 t.dark ]
  ++ vines t ++ petals t
  ++ [ Elem.circle center256 233 t.vdark ]

def frameOrnateFantasy (color : String) : Option SvgImage :=
  (toneVariants color).map fun t => svgWrap (ornateScene t)

-- ── Frame 5 — Riveted Metal (frames.js lines 181-209) ─────────────────────

/-- Rivet `i` of 24 (frames.js lines 186-193): two-tone circle pair on
radius 242 at `(i/24)·2π - π/2`. -/
def rivet (t : Palette) (i : ℕ) : List Elem :=
  let a : Angle := { piCoeff := ((i : ℚ) / 24) * 2 - 1 / 2, rad := 0 }
  [ Elem.circleStroked (Pt.polar 242 a) 5 t.vdark t.shine 1.5
  , Elem.circle (Pt.polar 242 a) 2 t.light ]

def rivets (t : Palette) : Scene := (List.range 24).flatMap (rivet t)

/-- Brushed band `i` of 5 (frames.js lines 196-200): stroked circle of
radius `234 + i*3`, stroke `light` width 1.5, opacity `0.12 + i*0.04`. -/
def band (t : Palette) (i : ℕ) : Elem :=
  Elem.strokedRing center256 (234 + (i : ℚ) * 3) t.light 1.5 (0.12 + (i : ℚ) * 0.04)

def bands (t : Palette) : Scene := (List.range 5).map (band t)

def rivetedScene (t : Palette) : Scene :=
  [ Elem.circle center256 252 t.vdark
  , Elem.circle center256 249 t.dark
  , Elem.circle center256 237 t.base ]
  ++ bands t ++ rivets t
  ++ [ Elem.circle center256 233 t.vdark ]

def frameRivetedMetal (color : String) : Option SvgImage :=
  (toneVariants color).map fun t => svgWrap (rivetedScene t)

-- ── Frame 6 — Gem Border (frames.js lines 214-268) ────────────────────────

/-- One gem at `angle` degrees with `size` (frames.js lines 217-237): a
quadrilateral whose corners sit at polar offsets from the gem center
(radius 242 on the angle): fractions 0.4 / 0.55 / 0.35 / 0.55 of `size`
at angular offsets 0 / +1.2 rad / π / -1.2 rad; filled `base` with
`vdark` stroke, overlaid by the same polygon filled with the radial
gradient at opacity 0.4, plus a shine dot of radius `size * 0.18` at
the gem center, opacity 0.7. -/
def gem (t : Palette) (angle size : ℚ) : List Elem :=
  let a := degAngle angle
  let pts : List Pt :=
    [ Pt.polarOff 242 a (size * 0.4) a
    , Pt.polarOff 242 a (size * 0.55) (a.plusRad 1.2)
    , Pt.polarOff 242 a (size * 0.35) { piCoeff := a.piCoeff + 1, rad := a.rad }
    , Pt.polarOff 242 a (size * 0.55) (a.plusRad (-1.2)) ]
  [ Elem.polygon pts t.base t.vdark 1
  , Elem.polygonGrad pts ("gemGrad") 0.4
  , Elem.circleOpacity (Pt.polar 242 a) (size * 0.18) t.shine 0.7 ]

def gems (t : Palette) : Scene :=
  (List.range 8).flatMap fun i => gem t ((i : ℚ) * 45 - 90) 13

/-- Bead `i` of 8 (frames.js lines 246-252): circle of radius 3.5 on ring
radius 242 at the midpoint angle `((i + 0.5) * 45 - 90)°`. -/
def bead (t : Palette) (i : ℕ) : Elem :=
  Elem.circleStroked (Pt.polar 242 (degAngle (((i : ℚ) + 0.5) * 45 - 90))) 3.5
    t.light t.vdark 1

def beads (t : Palette) : Scene := (List.range 8).map (bead t)

/-- The `<defs>` radial gradient of the gem frame (frames.js lines
255-260): center 35%/35%, extent 65%, white stops fading 0.9 → 0. -/
def gemGradientDef : Elem :=
  Elem.radialGradientDef ("gemGrad") 35 35 65 [(0, "white", 0.9), (100, "white", 0)]

def gemScene (t : Palette) : Scene :=
  [ gemGradientDef
  , Elem.circle center256 252 t.vdark
  , Elem.circle center256 249 t.dark
  , Elem.circle center256 236 t.base
  , Elem.circle center256 233 t.dark ]
  ++ beads t ++ gems t

def frameGemBorder (color : String) : Option SvgImage :=
  (toneVariants color).map fun t => svgWrap (gemScene t)

-- ── Registry (frames.js lines 272-279) ────────────────────────────────────

structure FrameDescriptor where
  id : String
  label : String
  fn : String → Option SvgImage

def FRAMES : List FrameDescriptor :=
  [ { id := "simple-ring",    label := "Simple Ring", fn := frameSimpleRing }
  , { id := "double-ring",    label := "Double Ring", fn := frameDoubleRing }
  , { id := "rope-twist",     label := "Rope Twist",  fn := frameRopeTwist }
  , { id := "ornate-fantasy", label := "Ornate",      fn := frameOrnateFantasy }
  , { id := "riveted-metal",  label := "Riveted",     fn := frameRivetedMetal }
  , { id := "gem-border",     label := "Gems",        fn := frameGemBorder } ]

inductive RenderError where
  | frameNotFound
  | invalidColor
deriving DecidableEq

/-- Modelled from the spec: the repository ships no identifier-based entry
point — app.js line 144 indexes the registry positionally
(`FRAMES[state.frameIndex].fn(state.color)`) — while the spec (§4.4, §6)
contracts `render(identifier, color)` over the registered identifiers,
failing with a `FrameNotFound` error kind for an unknown identifier and
with no fallback image.  Lookup is therefore modelled as the search of
`FRAMES` for the matching `id`. -/
def render (id color : String) : Except RenderError SvgImage :=
  match FRAMES.find? (fun f => f.id == id) with
  | none => Except.error RenderError.frameNotFound
  | some f =>
    match f.fn color with
    | some img => Except.ok img
    | none => Except.error RenderError.invalidColor

-- ── Mask compositing semantics ────────────────────────────────────────────

/-- Modelled from the spec (§4.3): the luminance of a mask paint; the mask
uses only `white` (luminance 1, lets content through) and `black`
(luminance 0, erases it). -/
def paintLum (fill : String) : ℚ := if fill = "white" then 1 else 0

/-- Modelled from the spec (§4.3): luminance of the mask at a point; the
cutout circle is painted after the rectangle, so it wins where it covers
(standard source-over painting), giving the rectangle's luminance only
outside the circle. -/
def maskLumAt (m : MaskDef) (x y : ℚ) : ℚ :=
  if (x - m.hole.cx) ^ 2 + (y - m.hole.cy) ^ 2 ≤ m.hole.r ^ 2 then paintLum m.hole.fill
  else if m.rect.x ≤ x ∧ x ≤ m.rect.x + m.rect.w ∧ m.rect.y ≤ y ∧ y ≤ m.rect.y + m.rect.h then
    paintLum m.rect.fill
  else 0

/-- Modelled from the spec (§4.3): a luminance mask multiplies the alpha the
scene content would have painted at a point by the mask's luminance
there, whatever that content alpha is. -/
def maskedAlphaAt (img : SvgImage) (x y contentAlpha : ℚ) : ℚ :=
  contentAlpha * maskLumAt img.mask x y

-- ── Spec-side definitions, to be compared with the source-side ones ───────

/-- The spec's "x (floor lo)": `x`, but no lower than `lo`. -/
def clampFloor (x lo : ℤ) : ℤ := if x < lo then lo else x

/-- The spec's "x (ceiling hi)": `x`, capped at `hi`. -/
def clampCeil (x hi : ℤ) : ℤ := if hi < x then hi else x

/-- Follows the claim's (C4 / spec §4.1) words: light = saturation −5
(floor 0), lightness +22 (ceiling 92); dark = +5 (ceiling 100), −22
(floor 8); vdark = +10 (ceiling 100), −38 (floor 4); shine = −15
(floor 0), +38 (ceiling 96); base = the HSL round-trip of the input. -/
def toneVariantsSpec (h s l : ℤ) : Palette where
  base := hslToHex (h : ℚ) (s : ℚ) (l : ℚ)
  light := hslToHex (h : ℚ) ((clampFloor (s - 5) 0 : ℤ) : ℚ) ((clampCeil (l + 22) 92 : ℤ) : ℚ)
  dark := hslToHex (h : ℚ) ((clampCeil (s + 5) 100 : ℤ) : ℚ) ((clampFloor (l - 22) 8 : ℤ) : ℚ)
  vdark := hslToHex (h : ℚ) ((clampCeil (s + 10) 100 : ℤ) : ℚ) ((clampFloor (l - 38) 4 : ℤ) : ℚ)
  shine := hslToHex (h : ℚ) ((clampFloor (s - 15) 0 : ℤ) : ℚ) ((clampCeil (l + 38) 96 : ℤ) : ℚ)

/-- Follows the claim's (C8) words: segment `i` starts at `-90° + i·(2π/36)`,
ends 55% of the way through its angular step, bows through a control
point at radius 234 at the drawn segment's angular midpoint twisted
`+0.08` rad for even `i` and `-0.08` for odd `i`, and is stroked `base`
for even `i`, `dark` for odd `i`. -/
def ropeStrandSpec (t : Palette) (i : ℕ) : Elem :=
  let start : Angle := { piCoeff := -(1 / 2) + (i : ℚ) * (2 / 36), rad := 0 }
  let stop : Angle := { piCoeff := start.piCoeff + 0.55 * (2 / 36), rad := 0 }
  let mid : Angle :=
    { piCoeff := (start.piCoeff + stop.piCoeff) / 2
      rad := if i % 2 = 0 then 0.08 else -0.08 }
  Elem.pathQ (Pt.polar 242 start) (Pt.polar 234 mid) (Pt.polar 242 stop)
    (if i % 2 = 0 then t.base else t.dark) 9 true

/-- Radii of the plain filled circles of a scene, in paint order. -/
def circleRadii (s : Scene) : List ℚ :=
  s.filterMap fun e =>
    match e with
    | Elem.circle _ r _ => some r
    | _ => none

/-- Fill colors of the plain filled circles of a scene, in paint order. -/
def circleFills (s : Scene) : List String :=
  s.filterMap fun e =>
    match e with
    | Elem.circle _ _ fill => some fill
    | _ => none

/-- Case folding on ASCII codes: the uppercase hex letters `A`-`F`
(codes 65-70) map onto their lowercase forms; everything else is kept. -/
def foldN (n : ℕ) : ℕ := if 65 ≤ n ∧ n ≤ 70 then n + 32 else n

def hexCaseFold (c : Char) : ℕ := foldN c.toNat

/-- Two strings differ at most in the letter case of hex digits. -/
def hexCaseEquiv (s1 s2 : String) : Prop :=
  s1.data.map hexCaseFold = s2.data.map hexCaseFold

/-- The registered frame identifiers, in registry order. -/
def frameIds : List String :=
  ["simple-ring", "double-ring", "rope-twist", "ornate-fantasy", "riveted-metal", "gem-border"]

-- ── Helper lemmas ─────────────────────────────────────────────────────────

lemma clampFloor_eq_max (x lo : ℤ) : clampFloor x lo = max x lo := by
  unfold clampFloor
  split_ifs <;> omega

lemma clampCeil_eq_min (x hi : ℤ) : clampCeil x hi = min x hi := by
  unfold clampCeil
  split_ifs <;> omega

lemma toneVariants_of_parse (c : String) (r g b : ℕ)
    (hc : parseHexColor c = some (r, g, b)) :
    toneVariants c =
      some (toneVariantsHSL (hexToHSLrgb r g b).1 (hexToHSLrgb r g b).2.1
        (hexToHSLrgb r g b).2.2) := by
  simp [toneVariants, hexToHSL, hc]

lemma toneParams_of_parse (c : String) (r g b : ℕ)
    (hc : parseHexColor c = some (r, g, b)) :
    toneParams c =
      some (toneParamsHSL (hexToHSLrgb r g b).1 (hexToHSLrgb r g b).2.1
        (hexToHSLrgb r g b).2.2) := by
  simp [toneParams, hexToHSL, hc]

-- ── Claim C4 ──────────────────────────────────────────────────────────────

/-- C4: for every valid accent color with rounded HSL triple (h,s,l),
`toneVariants` derives exactly the palette given by the spec's offsets
and clamps, with `base` the HSL round-trip of the original color. -/
theorem c4_tone_formulas (c : String) (r g b : ℕ) (h s l : ℤ)
    (hc : parseHexColor c = some (r, g, b))
    (hhsl : hexToHSLrgb r g b = (h, s, l)) :
    toneVariants c = some (toneVariantsSpec h s l) := by
  rw [toneVariants_of_parse c r g b hc, hhsl]
  have hspec : toneVariantsSpec h s l = toneVariantsHSL h s l := by
    unfold toneVariantsSpec toneVariantsHSL applyParams toneParamsHSL encodeTone
    simp only [clampFloor_eq_max, clampCeil_eq_min]
  rw [hspec]

/-- Closed instance of `c4_tone_formulas` at the color `#c0922a`,
whose rounded HSL triple is (42, 64, 46). -/
theorem c4_tone_formulas_witness :
    toneVariants ("#c0922a") = some (toneVariantsSpec 42 64 46) :=
  c4_tone_formulas ("#c0922a") 192 146 42 42 64 46 (by decide)
    (by with_unfolding_all decide)

-- ── Claim C1 ──────────────────────────────────────────────────────────────

/-- C1 (amended): the lightness values the palette tones are constructed
with satisfy `dark ≥ vdark` and `shine ≥ light` for every valid accent
color, and the full chain `light ≥ base ≥ dark` on the sub-domain where
the base lightness `l` lies in `[8, 92]`; at `l > 92` the `light` tone's
ceiling 92 falls below `base`, and at `l < 8` the `dark` tone's floor 8
rises above `base`. -/
theorem c1_lightness_ordering (c : String) (p : ToneParams)
    (hp : toneParams c = some p) :
    p.dark.2.2 ≥ p.vdark.2.2 ∧
    p.shine.2.2 ≥ p.light.2.2 ∧
    (p.base.2.2 ≤ 92 → p.light.2.2 ≥ p.base.2.2) ∧
    (8 ≤ p.base.2.2 → p.base.2.2 ≥ p.dark.2.2) ∧
    toneVariants c = some (applyParams p) := by
  rw [toneParams] at hp
  rw [Option.map_eq_some'] at hp
  obtain ⟨⟨h, s, l⟩, hh, rfl⟩ := hp
  refine ⟨?_, ?_, ?_, ?_, ?_⟩
  · simp only [toneParamsHSL]
    omega
  · simp only [toneParamsHSL]
    omega
  · simp only [toneParamsHSL]
    omega
  · simp only [toneParamsHSL]
    omega
  · rw [toneVariants, hh, Option.map_some']
    rfl

/-- C1 is false as frozen: at the valid accent color `#ffffff`
(lightness 100) the `light` tone is constructed with clamped lightness
92, strictly below `base`'s 100, refuting
`light.lightness ≥ base.lightness`. -/
theorem c1_counterexample :
    toneParams ("#ffffff") = some (toneParamsHSL 0 0 100) ∧
    (toneParamsHSL 0 0 100).light.2.2 < (toneParamsHSL 0 0 100).base.2.2 := by
  constructor
  · with_unfolding_all decide
  · decide

/-- Closed instance of `c1_lightness_ordering` at `#c0922a` (base
lightness 46, inside `[8, 92]`). -/
theorem c1_lightness_ordering_witness :
    (toneParamsHSL 42 64 46).dark.2.2 ≥ (toneParamsHSL 42 64 46).vdark.2.2 ∧
    (toneParamsHSL 42 64 46).shine.2.2 ≥ (toneParamsHSL 42 64 46).light.2.2 ∧
    ((toneParamsHSL 42 64 46).base.2.2 ≤ 92 →
      (toneParamsHSL 42 64 46).light.2.2 ≥ (toneParamsHSL 42 64 46).base.2.2) ∧
    (8 ≤ (toneParamsHSL 42 64 46).base.2.2 →
      (toneParamsHSL 42 64 46).base.2.2 ≥ (toneParamsHSL 42 64 46).dark.2.2) ∧
    toneVariants ("#c0922a") = some (applyParams (toneParamsHSL 42 64 46)) :=
  c1_lightness_ordering ("#c0922a") (toneParamsHSL 42 64 46)
    (by with_unfolding_all decide)

-- ── Claim C9 ──────────────────────────────────────────────────────────────

/-- C9: tone derivation is total on valid colors, and on achromatic
(equal-channel) colors the hue is reported as 0 (and saturation 0),
with no failure. -/
theorem c9_total_achromatic (c : String) (r g b : ℕ)
    (hc : parseHexColor c = some (r, g, b)) :
    (toneVariants c).isSome = true ∧
    (r = g → g = b →
      hexToHSL c = some (0, 0, jsRound (((r : ℚ) / 255 + (r : ℚ) / 255) / 2 * 100))) := by
  constructor
  · rw [toneVariants_of_parse c r g b hc]
    rfl
  · rintro rfl rfl
    rw [hexToHSL, hc, Option.map_some']
    rw [hexToHSLrgb, hslCore]
    simp

/-- Closed instance of `c9_total_achromatic` at the gray `#808080`. -/
theorem c9_total_achromatic_witness :
    (toneVariants ("#808080")).isSome = true ∧
    (128 = 128 → 128 = 128 →
      hexToHSL ("#808080") =
        some (0, 0, jsRound (((128 : ℚ) / 255 + (128 : ℚ) / 255) / 2 * 100))) :=
  c9_total_achromatic ("#808080") 128 128 128 (by decide)

lemma frameSimpleRing_eq (c : String) (t : Palette) (ht : toneVariants c = some t) :
    frameSimpleRing c = some (svgWrap (simpleRingScene t)) := by
  rw [frameSimpleRing, ht, Option.map_some']

lemma frameDoubleRing_eq (c : String) (t : Palette) (ht : toneVariants c = some t) :
    frameDoubleRing c = some (svgWrap (doubleRingScene t)) := by
  rw [frameDoubleRing, ht, Option.map_some']

lemma frameRopeTwist_eq (c : String) (t : Palette) (ht : toneVariants c = some t) :
    frameRopeTwist c = some (svgWrap (ropeTwistScene t)) := by
  rw [frameRopeTwist, ht, Option.map_some']

lemma frameOrnateFantasy_eq (c : String) (t : Palette) (ht : toneVariants c = some t) :
    frameOrnateFantasy c = some (svgWrap (ornateScene t)) := by
  rw [frameOrnateFantasy, ht, Option.map_some']

lemma frameRivetedMetal_eq (c : String) (t : Palette) (ht : toneVariants c = some t) :
    frameRivetedMetal c = some (svgWrap (rivetedScene t)) := by
  rw [frameRivetedMetal, ht, Option.map_some']

lemma frameGemBorder_eq (c : String) (t : Palette) (ht : toneVariants c = some t) :
    frameGemBorder c = some (svgWrap (gemScene t)) := by
  rw [frameGemBorder, ht, Option.map_some']

lemma render_ok (id c : String) (f : FrameDescriptor) (img : SvgImage)
    (hf : FRAMES.find? (fun fd => fd.id == id) = some f)
    (himg : f.fn c = some img) :
    render id c = Except.ok img := by
  simp only [render, hf, himg]

-- ── Claim C2 ──────────────────────────────────────────────────────────────

/-- C2: rendering by an identifier outside the registered set fails with
the `frameNotFound` error for every color; no image is produced and no
default frame is substituted. -/
theorem c2_unknown_frame (id : String) (h : id ∉ frameIds) (color : String) :
    render id color = Except.error RenderError.frameNotFound := by
  have hf : FRAMES.find? (fun f => f.id == id) = none := by
    rw [List.find?_eq_none]
    intro f hfm
    simp only [frameIds, List.mem_cons, List.not_mem_nil, or_false, not_or] at h
    obtain ⟨h1, h2, h3, h4, h5, h6⟩ := h
    simp only [FRAMES, List.mem_cons, List.not_mem_nil, or_false] at hfm
    rcases hfm with rfl | rfl | rfl | rfl | rfl | rfl <;> simp only [beq_iff_eq]
    · exact fun hh => h1 hh.symm
    · exact fun hh => h2 hh.symm
    · exact fun hh => h3 hh.symm
    · exact fun hh => h4 hh.symm
    · exact fun hh => h5 hh.symm
    · exact fun hh => h6 hh.symm
  rw [render, hf]

/-- Closed instance of `c2_unknown_frame` at the unregistered identifier
`hexagon`. -/
theorem c2_unknown_frame_witness :
    render ("hexagon") ("#c0922a") = Except.error RenderError.frameNotFound :=
  c2_unknown_frame ("hexagon") (by decide) ("#c0922a")

-- ── Claim C6 ──────────────────────────────────────────────────────────────

/-- C6: the registry has exactly the six stable identifiers, in order,
each with a display label and a generator, and rendering any of the six
identifiers succeeds on every valid color. -/
theorem c6_registry_complete :
    FRAMES.map (fun f => f.id) = frameIds ∧
    FRAMES.map (fun f => f.label) =
      ["Simple Ring", "Double Ring", "Rope Twist", "Ornate", "Riveted", "Gems"] ∧
    FRAMES.length = 6 ∧
    (∀ id ∈ frameIds, ∀ (c : String) (r g b : ℕ),
      parseHexColor c = some (r, g, b) →
      ∃ img, render id c = Except.ok img) := by
  refine ⟨rfl, rfl, rfl, ?_⟩
  intro id hid c r g b hc
  have ht := toneVariants_of_parse c r g b hc
  fin_cases hid
  · exact ⟨_, render_ok ("simple-ring") c ⟨"simple-ring", "Simple Ring", frameSimpleRing⟩
      _ rfl (frameSimpleRing_eq c _ ht)⟩
  · exact ⟨_, render_ok ("double-ring") c ⟨"double-ring", "Double Ring", frameDoubleRing⟩
      _ rfl (frameDoubleRing_eq c _ ht)⟩
  · exact ⟨_, render_ok ("rope-twist") c ⟨"rope-twist", "Rope Twist", frameRopeTwist⟩
      _ rfl (frameRopeTwist_eq c _ ht)⟩
  · exact ⟨_, render_ok ("ornate-fantasy") c ⟨"ornate-fantasy", "Ornate", frameOrnateFantasy⟩
      _ rfl (frameOrnateFantasy_eq c _ ht)⟩
  · exact ⟨_, render_ok ("riveted-metal") c ⟨"riveted-metal", "Riveted", frameRivetedMetal⟩
      _ rfl (frameRivetedMetal_eq c _ ht)⟩
  · exact ⟨_, render_ok ("gem-border") c ⟨"gem-border", "Gems", frameGemBorder⟩
      _ rfl (frameGemBorder_eq c _ ht)⟩

/-- Closed instance of `c6_registry_complete`: rendering `simple-ring`
with `#c0922a` succeeds. -/
theorem c6_registry_complete_witness :
    ∃ img, render ("simple-ring") ("#c0922a") = Except.ok img :=
  c6_registry_complete.2.2.2 ("simple-ring") (by decide) ("#c0922a") 192 146 42
    (by decide)

-- ── Claim C5 ──────────────────────────────────────────────────────────────

lemma svgWrap_masked_alpha (s : Scene) (x y a : ℚ)
    (h : (x - 256) ^ 2 + (y - 256) ^ 2 < 232 ^ 2) :
    maskedAlphaAt (svgWrap s) x y a = 0 := by
  simp only [maskedAlphaAt, svgWrap, maskLumAt]
  rw [if_pos (le_of_lt h)]
  have hb : paintLum ("black") = 0 := rfl
  rw [hb, mul_zero]

/-- C5: every frame's output carries the compositing mask of `svgWrap` —
a full-canvas white rectangle minus a black circle of radius 232 at
(256, 256), applied to the whole scene — and therefore every point
strictly inside radius 232 of the center, the exact center included,
has output alpha 0 whatever alpha the scene content would have painted
there, for every accent color. -/
theorem c5_mask_invariant :
    ∀ f ∈ FRAMES, ∀ (c : String) (img : SvgImage), f.fn c = some img →
      img.mask =
        { rect := { x := 0, y := 0, w := 512, h := 512, fill := "white" }
          hole := { cx := 256, cy := 256, r := 232, fill := "black" } } ∧
      ∀ x y a : ℚ, (x - 256) ^ 2 + (y - 256) ^ 2 < 232 ^ 2 →
        maskedAlphaAt img x y a = 0 := by
  intro f hf c img himg
  fin_cases hf
  · obtain ⟨t, ht, rfl⟩ := Option.map_eq_some'.mp
      (himg : (toneVariants c).map (fun t => svgWrap (simpleRingScene t)) = some img)
    exact ⟨rfl, fun x y a h => svgWrap_masked_alpha _ x y a h⟩
  · obtain ⟨t, ht, rfl⟩ := Option.map_eq_some'.mp
      (himg : (toneVariants c).map (fun t => svgWrap (doubleRingScene t)) = some img)
    exact ⟨rfl, fun x y a h => svgWrap_masked_alpha _ x y a h⟩
  · obtain ⟨t, ht, rfl⟩ := Option.map_eq_some'.mp
      (himg : (toneVariants c).map (fun t => svgWrap (ropeTwistScene t)) = some img)
    exact ⟨rfl, fun x y a h => svgWrap_masked_alpha _ x y a h⟩
  · obtain ⟨t, ht, rfl⟩ := Option.map_eq_some'.mp
      (himg : (toneVariants c).map (fun t => svgWrap (ornateScene t)) = some img)
    exact ⟨rfl, fun x y a h => svgWrap_masked_alpha _ x y a h⟩
  · obtain ⟨t, ht, rfl⟩ := Option.map_eq_some'.mp
      (himg : (toneVariants c).map (fun t => svgWrap (rivetedScene t)) = some img)
    exact ⟨rfl, fun x y a h => svgWrap_masked_alpha _ x y a h⟩
  · obtain ⟨t, ht, rfl⟩ := Option.map_eq_some'.mp
      (himg : (toneVariants c).map (fun t => svgWrap (gemScene t)) = some img)
    exact ⟨rfl, fun x y a h => svgWrap_masked_alpha _ x y a h⟩

set_option maxRecDepth 4000 in
/-- Closed instance of `c5_mask_invariant`: the simple ring at `#c0922a`
is fully transparent at the exact center (256, 256). -/
theorem c5_mask_invariant_witness :
    maskedAlphaAt (svgWrap (simpleRingScene (toneVariantsHSL 42 64 46))) 256 256 1 = 0 :=
  (c5_mask_invariant ⟨"simple-ring", "Simple Ring", frameSimpleRing⟩
      (by simp [FRAMES]) ("#c0922a")
      (svgWrap (simpleRingScene (toneVariantsHSL 42 64 46)))
      (by with_unfolding_all decide)).2 256 256 1 (by norm_num)

-- ── Claim C7 ──────────────────────────────────────────────────────────────

/-- C7 (amended): for every accent color the Double Ring scene is exactly
7 concentric filled circles with radii strictly decreasing from 252 to
232 — an outer `vdark`/`base`/`vdark` ring pair, a `dark` gap circle,
and an inner `vdark`/`light`/`vdark` ring pair. -/
theorem c7_double_ring (c : String) (t : Palette) (ht : toneVariants c = some t) :
    frameDoubleRing c = some (svgWrap (doubleRingScene t)) ∧
    (doubleRingScene t).length = 7 ∧
    circleRadii (doubleRingScene t) = [252, 248, 243, 240, 238, 235, 232] ∧
    List.Chain' (fun x y => y < x) (circleRadii (doubleRingScene t)) ∧
    circleFills (doubleRingScene t) =
      [t.vdark, t.base, t.vdark, t.dark, t.vdark, t.light, t.vdark] := by
  refine ⟨frameDoubleRing_eq c t ht, rfl, rfl, ?_, rfl⟩
  show List.Chain' (fun x y => y < x) [252, 248, 243, 240, 238, 235, 232]
  norm_num

/-- C7 is false as frozen: at `#c0922a` the 4th circle of the Double Ring
scene (the gap band, radius 240) is filled with the `dark` tone
`#674e13`, which is none of the `vdark`/`base`/`light` tones the claim
allows the fills to alternate over. -/
theorem c7_counterexample :
    toneVariants ("#c0922a") =
      some ⟨"#c0932a", "#dec17d", "#674e13", "#231a05", "#eadec2"⟩ ∧
    circleFills (doubleRingScene ⟨"#c0932a", "#dec17d", "#674e13", "#231a05", "#eadec2"⟩) =
      ["#231a05", "#c0932a", "#231a05", "#674e13", "#231a05", "#dec17d", "#231a05"] ∧
    ("#674e13" : String) ∉ ["#231a05", "#c0932a", "#dec17d"] := by
  refine ⟨by with_unfolding_all decide, by decide, by decide⟩

set_option maxRecDepth 4000 in
/-- Closed instance of `c7_double_ring` at `#c0922a`. -/
theorem c7_double_ring_witness :
    frameDoubleRing ("#c0922a") =
      some (svgWrap (doubleRingScene
        ⟨"#c0932a", "#dec17d", "#674e13", "#231a05", "#eadec2"⟩)) ∧
    (doubleRingScene ⟨"#c0932a", "#dec17d", "#674e13", "#231a05", "#eadec2"⟩).length = 7 ∧
    circleRadii (doubleRingScene ⟨"#c0932a", "#dec17d", "#674e13", "#231a05", "#eadec2"⟩) =
      [252, 248, 243, 240, 238, 235, 232] ∧
    List.Chain' (fun x y => y < x)
      (circleRadii (doubleRingScene ⟨"#c0932a", "#dec17d", "#674e13", "#231a05", "#eadec2"⟩)) ∧
    circleFills (doubleRingScene ⟨"#c0932a", "#dec17d", "#674e13", "#231a05", "#eadec2"⟩) =
      ["#231a05", "#c0932a", "#231a05", "#674e13", "#231a05", "#dec17d", "#231a05"] :=
  c7_double_ring ("#c0922a") ⟨"#c0932a", "#dec17d", "#674e13", "#231a05", "#eadec2"⟩
    (by with_unfolding_all decide)

-- ── Claim C8 ──────────────────────────────────────────────────────────────

lemma ropeStrand_eq_spec (t : Palette) (i : ℕ) : ropeStrand t i = ropeStrandSpec t i := by
  unfold ropeStrand ropeStrandSpec
  simp only [Elem.pathQ.injEq, Pt.polar.injEq, Angle.mk.injEq]
  norm_num
  constructor
  · ring
  · constructor <;> ring

lemma ropeStrands_eq_spec (t : Palette) :
    ropeStrands t = (List.range 36).map (ropeStrandSpec t) := by
  unfold ropeStrands
  exact List.map_congr_left fun i _ => ropeStrand_eq_spec t i

/-- C8: for every accent color, the Rope Twist frame draws exactly 36
curved-stroke segments on radius 242, segment `i` running from
`-90° + i·(2π/36)` (top, clockwise with index) to 55% through its
angular step, through a control point at radius 234 at the drawn
segment's angular midpoint twisted `±0.08` rad by parity, colored
`base`/`dark` by parity. -/
theorem c8_rope_twist (c : String) (t : Palette) (ht : toneVariants c = some t) :
    frameRopeTwist c =
      some (svgWrap
        ([Elem.circle center256 252 t.vdark, Elem.circle center256 248 t.dark]
          ++ (List.range 36).map (ropeStrandSpec t)
          ++ [Elem.circle center256 233 t.vdark])) ∧
    (ropeStrands t).length = 36 := by
  constructor
  · rw [frameRopeTwist_eq c t ht]
    rw [ropeTwistScene, ropeStrands_eq_spec]
  · rw [ropeStrands, List.length_map, List.length_range]

/-- Closed instance of `c8_rope_twist` at `#c0922a`. -/
theorem c8_rope_twist_witness :
    frameRopeTwist ("#c0922a") =
      some (svgWrap
        ([Elem.circle center256 252 ("#231a05"), Elem.circle center256 248 ("#674e13")]
          ++ (List.range 36).map
              (ropeStrandSpec ⟨"#c0932a", "#dec17d", "#674e13", "#231a05", "#eadec2"⟩)
          ++ [Elem.circle center256 233 ("#231a05")])) ∧
    (ropeStrands ⟨"#c0932a", "#dec17d", "#674e13", "#231a05", "#eadec2"⟩).length = 36 :=
  c8_rope_twist ("#c0922a") ⟨"#c0932a", "#dec17d", "#674e13", "#231a05", "#eadec2"⟩
    (by with_unfolding_all decide)

-- ── Claim C10 ─────────────────────────────────────────────────────────────

set_option maxHeartbeats 1000000 in
lemma hexDigitValN_congr (m n : ℕ) (h : foldN m = foldN n) :
    hexDigitValN m = hexDigitValN n := by
  unfold foldN at h
  unfold hexDigitValN
  split_ifs at h ⊢ <;>
    first
    | rfl
    | (exfalso; omega)
    | (simp only [Option.some.injEq]; omega)

lemma hexDigitVal_congr (a b : Char) (h : hexCaseFold a = hexCaseFold b) :
    hexDigitVal a = hexDigitVal b :=
  hexDigitValN_congr a.toNat b.toNat h

lemma parse2_congr (a b a' b' : Char) (ha : hexCaseFold a = hexCaseFold a')
    (hb : hexCaseFold b = hexCaseFold b') : parse2 a b = parse2 a' b' := by
  unfold parse2
  rw [hexDigitVal_congr a a' ha, hexDigitVal_congr b b' hb]

lemma parseHexChars_congr (l1 l2 : List Char)
    (h : l1.map hexCaseFold = l2.map hexCaseFold) :
    parseHexChars l1 = parseHexChars l2 := by
  rcases l1 with _ | ⟨a1, _ | ⟨b1, _ | ⟨c1, _ | ⟨d1, _ | ⟨e1, _ | ⟨f1, _ | ⟨g1, r1⟩⟩⟩⟩⟩⟩⟩ <;>
    rcases l2 with _ | ⟨a2, _ | ⟨b2, _ | ⟨c2, _ | ⟨d2, _ | ⟨e2, _ | ⟨f2, _ | ⟨g2, r2⟩⟩⟩⟩⟩⟩⟩ <;>
    simp only [List.map_cons, List.map_nil, List.cons.injEq, List.nil_eq,
      List.map_eq_nil_iff, reduceCtorEq, and_false, false_and] at h <;>
    try rfl
  obtain ⟨-, hb, hc, hd, he, hf, hg, -⟩ := h
  simp only [parseHexChars]
  rw [parse2_congr b1 c1 b2 c2 hb hc, parse2_congr d1 e1 d2 e2 hd he,
      parse2_congr f1 g1 f2 g2 hf hg]

lemma parseHexColor_congr (s1 s2 : String) (h : hexCaseEquiv s1 s2) :
    parseHexColor s1 = parseHexColor s2 :=
  parseHexChars_congr s1.data s2.data h

/-- C10: accent parsing is letter-case insensitive — for two color strings
that agree up to the case of hex letters, `toneVariants` returns the
identical palette and all six frame generators return identical
output. -/
theorem c10_case_insensitive (s1 s2 : String) (h : hexCaseEquiv s1 s2) :
    toneVariants s1 = toneVariants s2 ∧
    frameSimpleRing s1 = frameSimpleRing s2 ∧
    frameDoubleRing s1 = frameDoubleRing s2 ∧
    frameRopeTwist s1 = frameRopeTwist s2 ∧
    frameOrnateFantasy s1 = frameOrnateFantasy s2 ∧
    frameRivetedMetal s1 = frameRivetedMetal s2 ∧
    frameGemBorder s1 = frameGemBorder s2 := by
  have hp := parseHexColor_congr s1 s2 h
  have ht : toneVariants s1 = toneVariants s2 := by
    rw [toneVariants, toneVariants, hexToHSL, hexToHSL, hp]
  refine ⟨ht, ?_, ?_, ?_, ?_, ?_, ?_⟩ <;>
    simp only [frameSimpleRing, frameDoubleRing, frameRopeTwist, frameOrnateFantasy,
      frameRivetedMetal, frameGemBorder, ht]

/-- Closed instance of `c10_case_insensitive` at the pair `#C0922A` /
`#c0922a`. -/
theorem c10_case_insensitive_witness :
    toneVariants ("#C0922A") = toneVariants ("#c0922a") ∧
    frameSimpleRing ("#C0922A") = frameSimpleRing ("#c0922a") ∧
    frameDoubleRing ("#C0922A") = frameDoubleRing ("#c0922a") ∧
    frameRopeTwist ("#C0922A") = frameRopeTwist ("#c0922a") ∧
    frameOrnateFantasy ("#C0922A") = frameOrnateFantasy ("#c0922a") ∧
    frameRivetedMetal ("#C0922A") = frameRivetedMetal ("#c0922a") ∧
    frameGemBorder ("#C0922A") = frameGemBorder ("#c0922a") :=
  c10_case_insensitive ("#C0922A") ("#c0922a") (by unfold hexCaseEquiv; decide)

-- ── Claim C3 ──────────────────────────────────────────────────────────────

lemma jsRound_nonneg {q : ℚ} (h : 0 ≤ q) : 0 ≤ jsRound q := by
  unfold jsRound
  exact Int.floor_nonneg.mpr (by linarith)

lemma jsRound_le_of_lt_half {q : ℚ} {n : ℤ} (h : q < (n : ℚ) + 1 / 2) : jsRound q ≤ n := by
  unfold jsRound
  have hlt : ⌊q + 1 / 2⌋ < n + 1 := Int.floor_lt.mpr (by push_cast; linarith)
  omega

lemma hexDigitValN_le (n x : ℕ) (h : hexDigitValN n = some x) : x ≤ 15 := by
  unfold hexDigitValN at h
  split_ifs at h <;> simp only [Option.some.injEq, reduceCtorEq] at h <;> omega

lemma parse2_le (a b : Char) (v : ℕ) (h : parse2 a b = some v) : v ≤ 255 := by
  unfold parse2 at h
  split at h
  case _ x y hx hy =>
    simp only [Option.some.injEq] at h
    have h1 := hexDigitValN_le a.toNat x hx
    have h2 := hexDigitValN_le b.toNat y hy
    omega
  case _ => exact absurd h (by simp)

lemma parseHexChars_le (l : List Char) (r g b : ℕ)
    (h : parseHexChars l = some (r, g, b)) : r ≤ 255 ∧ g ≤ 255 ∧ b ≤ 255 := by
  unfold parseHexChars at h
  split at h
  case _ c0 c1 c2 c3 c4 c5 c6 rest =>
    split at h
    case _ x y z hx hy hz =>
      simp only [Option.some.injEq, Prod.mk.injEq] at h
      obtain ⟨rfl, rfl, rfl⟩ := h
      exact ⟨parse2_le _ _ _ hx, parse2_le _ _ _ hy, parse2_le _ _ _ hz⟩
    case _ => exact absurd h (by simp)
  case _ => exact absurd h (by simp)

lemma div_bounds {x d : ℚ} (hd : 0 < d) (hlow : -d ≤ x) (hhigh : x ≤ d) :
    -1 ≤ x / d ∧ x / d ≤ 1 :=
  ⟨by rw [le_div_iff₀ hd]; linarith, by rw [div_le_one hd]; linarith⟩

set_option maxHeartbeats 2000000 in
lemma hslCore_ranges (r g b : ℚ) (hr0 : 0 ≤ r) (hr1 : r ≤ 1)
    (hg0 : 0 ≤ g) (hg1 : g ≤ 1) (hb0 : 0 ≤ b) (hb1 : b ≤ 1) :
    0 ≤ (hslCore r g b).1 ∧ (hslCore r g b).1 ≤ 360 ∧
    0 ≤ (hslCore r g b).2.1 ∧ (hslCore r g b).2.1 ≤ 100 ∧
    0 ≤ (hslCore r g b).2.2 ∧ (hslCore r g b).2.2 ≤ 100 := by
  simp only [hslCore]
  have hmx_r : r ≤ max r (max g b) := le_max_left _ _
  have hmx_g : g ≤ max r (max g b) := le_trans (le_max_left _ _) (le_max_right _ _)
  have hmx_b : b ≤ max r (max g b) := le_trans (le_max_right _ _) (le_max_right _ _)
  have hmn_r : min r (min g b) ≤ r := min_le_left _ _
  have hmn_g : min r (min g b) ≤ g := le_trans (min_le_right _ _) (min_le_left _ _)
  have hmn_b : min r (min g b) ≤ b := le_trans (min_le_right _ _) (min_le_right _ _)
  have hmx1 : max r (max g b) ≤ 1 := max_le hr1 (max_le hg1 hb1)
  have hmn0 : 0 ≤ min r (min g b) := le_min hr0 (le_min hg0 hb0)
  set mx := max r (max g b) with hmxdef
  set mn := min r (min g b) with hmndef
  have hmnmx : mn ≤ mx := le_trans hmn_r hmx_r
  have hl0 : 0 ≤ (mx + mn) / 2 * 100 := by linarith
  have hl1 : (mx + mn) / 2 * 100 ≤ (100 : ℚ) := by
    have hmn1 : mn ≤ 1 := le_trans hmnmx hmx1
    linarith
  have hlbound : 0 ≤ jsRound ((mx + mn) / 2 * 100) ∧ jsRound ((mx + mn) / 2 * 100) ≤ 100 :=
    ⟨jsRound_nonneg hl0, jsRound_le_of_lt_half (by push_cast; linarith)⟩
  rcases eq_or_lt_of_le hmnmx with heq | hlt
  · rw [if_pos heq.symm]
    exact ⟨le_refl 0, (by norm_num : (0 : ℤ) ≤ 360), le_refl 0,
      (by norm_num : (0 : ℤ) ≤ 100), hlbound.1, hlbound.2⟩
  · rw [if_neg (ne_of_gt hlt)]
    have hd : 0 < mx - mn := sub_pos.mpr hlt
    have hA := div_bounds hd (by linarith) (by linarith : g - b ≤ mx - mn)
    have hB := div_bounds hd (by linarith) (by linarith : b - r ≤ mx - mn)
    have hC := div_bounds hd (by linarith) (by linarith : r - g ≤ mx - mn)
    have hden1 : (0 : ℚ) < 2 - mx - mn := by linarith
    have hden2 : (0 : ℚ) < mx + mn := by linarith
    have hs1 : 0 ≤ (mx - mn) / (2 - mx - mn) := div_nonneg (by linarith) (by linarith)
    have hs1' : (mx - mn) / (2 - mx - mn) ≤ 1 := (div_le_one hden1).mpr (by linarith)
    have hs2 : 0 ≤ (mx - mn) / (mx + mn) := div_nonneg (by linarith) (by linarith)
    have hs2' : (mx - mn) / (mx + mn) ≤ 1 := (div_le_one hden2).mpr (by linarith)
    have hneg : (g < b) → (g - b) / (mx - mn) < 0 := fun hgb =>
      div_neg_of_neg_of_pos (by linarith) hd
    split_ifs with hsw1 hsw2 hsw3 hsw4 hsw5 hsw6 hsw7 <;>
      refine ⟨?_, ?_, ?_, ?_, hlbound.1, hlbound.2⟩ <;>
      first
      | exact jsRound_nonneg (by linarith [hA.1, hB.1, hC.1, hs1, hs2])
      | exact jsRound_le_of_lt_half
          (by push_cast; linarith [hA.2, hB.2, hC.2, hs1', hs2'])
      | exact jsRound_le_of_lt_half
          (by push_cast; linarith [hneg (by assumption), hA.1])
      | exact jsRound_nonneg (by
          have hq : 0 ≤ (g - b) / (mx - mn) :=
            div_nonneg (by linarith [not_lt.mp (by assumption : ¬ g < b)]) hd.le
          linarith)

/-- C3 (amended): for every valid 6-digit hex color, `hexToHSL` returns an
integer triple with hue in the closed range `[0, 360]` and saturation
and lightness in `[0, 100]`.  (The claim's half-open `[0, 360)` fails:
hues just below 360° round up to exactly 360.) -/
theorem c3_hsl_ranges (c : String) (h s l : ℤ) (hc : hexToHSL c = some (h, s, l)) :
    0 ≤ h ∧ h ≤ 360 ∧ 0 ≤ s ∧ s ≤ 100 ∧ 0 ≤ l ∧ l ≤ 100 := by
  rw [hexToHSL, Option.map_eq_some'] at hc
  obtain ⟨⟨r, g, b⟩, hp, hh⟩ := hc
  obtain ⟨hr, hg, hb⟩ := parseHexChars_le c.data r g b hp
  have h255 : (0 : ℚ) < 255 := by norm_num
  have bounds := hslCore_ranges ((r : ℚ) / 255) ((g : ℚ) / 255) ((b : ℚ) / 255)
    (by positivity) ((div_le_one h255).mpr (by exact_mod_cast hr))
    (by positivity) ((div_le_one h255).mpr (by exact_mod_cast hg))
    (by positivity) ((div_le_one h255).mpr (by exact_mod_cast hb))
  rw [show hslCore ((r : ℚ) / 255) ((g : ℚ) / 255) ((b : ℚ) / 255) = (h, s, l)
      from hh] at bounds
  exact bounds

/-- C3 is false as frozen: `#ff0001` is a valid 6-digit hex color whose
hue rounds to exactly 360, outside the claimed half-open range
`[0, 360)`. -/
theorem c3_counterexample :
    hexToHSL ("#ff0001") = some (360, 100, 50) ∧ ¬ ((360 : ℤ) < 360) := by
  exact ⟨by with_unfolding_all decide, by decide⟩

/-- Closed instance of `c3_hsl_ranges` at `#c0922a` (HSL (42, 64, 46)). -/
theorem c3_hsl_ranges_witness :
    (0 : ℤ) ≤ 42 ∧ (42 : ℤ) ≤ 360 ∧ (0 : ℤ) ≤ 64 ∧ (64 : ℤ) ≤ 100 ∧
    (0 : ℤ) ≤ 46 ∧ (46 : ℤ) ≤ 100 :=
  c3_hsl_ranges ("#c0922a") 42 64 46 (by with_unfolding_all decide)

end MapToken
